import Mathlib

/-!
Shallow embedding of the company-information chat bot found in
`Lab2/bot.py` and `Lab3/bot.py`: the JSON store (`load_data`/`save_data`),
the `/start` subscribe handler, the notifier callbacks
(`send_daily_digest`, `send_event_reminder`) and the scheduler
(`schedule_jobs`) of each file.  Machine-level concerns (the Telegram SDK,
the file system, the `json` codec) appear only at the boundary: the file
system is a pair of optional parsed documents (main file and the `.tmp`
sidecar used by `os.replace`), message delivery is an explicit
`Int → Except String Unit` transport argument, and the job queue is the
list of trigger records the code registers.
-/

set_option autoImplicit false

namespace TgLabs

/-! ### Data model (persisted JSON document, spec section 6) -/

/-- One entry of the `events` array.  Each field is optional because the
Python code reads them with `dict.get`; `none` models an absent key. -/
structure Event where
  day : Option String
  time : Option String
  title : Option String
  description : Option String
deriving Repr, DecidableEq

/-- The `company` object (`{name, industry}`). -/
structure Company where
  name : Option String
  industry : Option String
deriving Repr, DecidableEq

/-- One entry of the `team` array (`{name, role}`). -/
structure TeamMember where
  name : Option String
  role : Option String
deriving Repr, DecidableEq

/-- The `contacts` object. -/
structure Contacts where
  ivanovs_phone : Option String
  oleg_email : Option String
  oleg_phone : Option String
deriving Repr, DecidableEq

/-- The persisted JSON document: top-level keys `subscribers`, `company`,
`team`, `contacts`, `events`, `digests`.  `digests` is an association list
from weekday label to message body (Python dict keys are unique; lookup
takes the first match). -/
structure Doc where
  subscribers : List Int
  company : Option Company
  team : List TeamMember
  contacts : Option Contacts
  events : List Event
  digests : List (String × String)
deriving Repr, DecidableEq

/-- The empty document `{}` returned by `load_data` when the file is
missing or unparsable: every `dict.get` on it yields the default. -/
def emptyDoc : Doc :=
  { subscribers := [], company := none, team := [], contacts := none
    events := [], digests := [] }

/-- Python `dict.get(key)` on the `digests` mapping. -/
def dict_get : List (String × String) → String → Option String
  | [], _ => none
  | (k, v) :: rest, key => if k = key then some v else dict_get rest key

/-- Python `str(x)` as used by an f-string on a `dict.get` result:
an absent key prints as `None`. -/
def pystr : Option String → String
  | some s => s
  | none => "None"

/-! ### Store (`load_data` / `save_data`)

The file system is reduced to the parsed contents of `data.json` and of
the `data.json.tmp` sidecar; `none` means the file does not exist.  The
fidelity of the `json` codec itself (serialising a well-formed document
and parsing it back is the identity) is the standard library's contract
and is outside the repository. -/

structure FileState where
  main : Option Doc
  tmp : Option Doc
deriving Repr, DecidableEq

/-- `load_data`: parse `data.json`; on `FileNotFoundError` (or a parse
error, not representable here) log and return `{}`. -/
def load_data (fs : FileState) : Doc :=
  match fs.main with
  | some d => d
  | none => emptyDoc

/-- `save_data`: write the document to `data.json.tmp`, then
`os.replace` the sidecar onto `data.json` (atomic rename; the sidecar is
gone afterwards). -/
def save_data (data : Doc) (fs : FileState) : FileState :=
  let fs1 : FileState := { fs with tmp := some data }
  { main := fs1.tmp, tmp := none }

/-! ### Formatting helpers and the `/start` handler -/

def bold (text : String) : String := "<b>" ++ text ++ "</b>"

def code (text : String) : String := "<code>" ++ text ++ "</code>"

/-- The greeting text `/start` replies with (identical in both files). -/
def start_greeting (user_first : String) : String :=
  "Привет, " ++ user_first ++ "! Я бот компании " ++ bold "ТралалелоТралала" ++ "\n"
    ++ "Помогу с информацией о компании, контактах, событиях и пришлю дайджест.\n"
    ++ "Посмотри " ++ code "/help" ++ " для списка команд."

/-- Observable outcome of one `/start` invocation: the file state it
leaves behind, whether `save_data` was called, and the reply text. -/
structure StartOutcome where
  fs : FileState
  saved : Bool
  reply : String
deriving Repr, DecidableEq

/-- The `/start` handler (identical in both files): load the document,
append the chat id to `subscribers` and save — but only when the id is
present and not already subscribed — then greet. -/
def start (chat_id : Option Int) (user_first : String) (fs : FileState) : StartOutcome :=
  let data := load_data fs
  let subscribers := data.subscribers
  match chat_id with
  | none => { fs := fs, saved := false, reply := start_greeting user_first }
  | some cid =>
    if cid ∈ subscribers then
      { fs := fs, saved := false, reply := start_greeting user_first }
    else
      let data2 := { data with subscribers := subscribers ++ [cid] }
      { fs := save_data data2 fs, saved := true, reply := start_greeting user_first }

/-! ### Notifier (`send_daily_digest`, `send_event_reminder`)

Delivery goes through an explicit transport `deliver : Int → Except
String Unit`; `Except.error` models `bot.send_message` raising.  A
callback returns its attempt trace, one `(chat id, text, delivered?)`
record per loop iteration; the `try/except` around each send is the
`delivered` match that swallows the error (the warning log is not
modelled), so a failed attempt yields a `false` record and the loop goes
on with the remaining subscribers. -/

/-- Outcome of one `bot.send_message` call under the `try/except`:
`true` when the transport delivered, `false` when it raised (the
exception is caught and only logged). -/
def delivered (deliver : Int → Except String Unit) (chat_id : Int) : Bool :=
  match deliver chat_id with
  | Except.ok _ => true
  | Except.error _ => false

/-- The per-subscriber loop shared by both callbacks: attempt each send,
catch (and only log) a failure, continue with the remaining subscribers. -/
def send_loop (deliver : Int → Except String Unit) (text : String) :
    List Int → List (Int × String × Bool)
  | [] => []
  | chat_id :: rest =>
    (chat_id, text, delivered deliver chat_id) :: send_loop deliver text rest

/-- `send_daily_digest`: look up today's weekday label in `digests`;
if the entry is missing or falsy, silently do nothing; otherwise send it
to every subscriber. -/
def send_daily_digest (deliver : Int → Except String Unit) (today_ru : String)
    (fs : FileState) : List (Int × String × Bool) :=
  let data := load_data fs
  match dict_get data.digests today_ru with
  | none => []
  | some msg => if msg = "" then [] else send_loop deliver msg data.subscribers

/-- The fixed reminder template, filled from the job's carried payload
(`title`/`time`/`description` of the event at scheduling time). -/
def reminder_text (title time_str description : Option String) : String :=
  "Напоминание: " ++ pystr title ++ " в " ++ pystr time_str ++ ". " ++ pystr description

/-- `send_event_reminder`: reload the store; if its `events` list is
empty, return without sending; otherwise format the template from the
job payload and send it to every subscriber. -/
def send_event_reminder (deliver : Int → Except String Unit)
    (title time_str description : Option String) (fs : FileState) : List (Int × String × Bool) :=
  let data := load_data fs
  if data.events = [] then []
  else send_loop deliver (reminder_text title time_str description) data.subscribers

/-! ### Scheduler (`schedule_jobs`) -/

/-- Lab2's `ru_to_py_weekday` dict lookup: `none` models the `KeyError`
on an unrecognised label. -/
def ru_to_py_weekday (ru : String) : Option Nat :=
  if ru = "Понедельник" then some 0
  else if ru = "Вторник" then some 1
  else if ru = "Среда" then some 2
  else if ru = "Четверг" then some 3
  else if ru = "Пятница" then some 4
  else if ru = "Суббота" then some 5
  else if ru = "Воскресенье" then some 6
  else none

/-- Lab3's inline `weekdays` dict (same seven entries, duplicated in the
second file). -/
def weekdays_lab3 (ru : String) : Option Nat :=
  if ru = "Понедельник" then some 0
  else if ru = "Вторник" then some 1
  else if ru = "Среда" then some 2
  else if ru = "Четверг" then some 3
  else if ru = "Пятница" then some 4
  else if ru = "Суббота" then some 5
  else if ru = "Воскресенье" then some 6
  else none

/-- Split a character list at every `:` (Python `str` has no such helper;
this supports the `%H:%M` parse below). -/
def splitOnColon : List Char → List (List Char)
  | [] => [[]]
  | c :: rest =>
    let r := splitOnColon rest
    if c = ':' then [] :: r
    else
      match r with
      | [] => [[c]]
      | g :: gs => (c :: g) :: gs

def digitsToNat (cs : List Char) : Nat :=
  cs.foldl (fun acc c => acc * 10 + (c.toNat - 48)) 0

/-- `datetime.strptime(s, "%H:%M")`, restricted to ASCII digits: `%H`
matches one or two digits with value at most 23, the literal `:`, `%M`
one or two digits with value at most 59, and nothing may remain
unconverted.  `none` models the `ValueError`. -/
def parseHHMM (s : String) : Option (Nat × Nat) :=
  match splitOnColon s.toList with
  | [hcs, mcs] =>
    if 1 ≤ hcs.length ∧ hcs.length ≤ 2 ∧ hcs.all Char.isDigit
        ∧ 1 ≤ mcs.length ∧ mcs.length ≤ 2 ∧ mcs.all Char.isDigit
        ∧ digitsToNat hcs ≤ 23 ∧ digitsToNat mcs ≤ 59 then
      some (digitsToNat hcs, digitsToNat mcs)
    else none
  | _ => none

/-- A registered job-queue entry: `run_daily` with no `days` restriction
(the digest) or with a single weekday (a reminder, carrying the event's
`title`/`time`/`description` as `data` and the computed job name). -/
inductive Trigger where
  | daily (hour minute : Nat)
  | weekly (weekday hour minute : Nat)
      (title time_str description : Option String) (name : String)
deriving Repr, DecidableEq

/-- Lab2's per-event body of the `schedule_jobs` loop: map the weekday
label (absent key defaults to `""`), parse the time (absent key defaults
to `"00:00"`), set the hour and minute on today's date, subtract 15
minutes (plain clock-field arithmetic with midnight wrap-around), and
register a weekly trigger on the event's weekday index.  `none` models
the per-event `try/except` skipping the event. -/
def reminder_for_lab2 (ev : Event) : Option Trigger :=
  match ru_to_py_weekday (ev.day.getD "") with
  | none => none
  | some weekday_idx =>
    match parseHHMM (ev.time.getD "00:00") with
    | none => none
    | some (h, m) =>
      let total := h * 60 + m
      let remind := (total + 1440 - 15) % 1440
      some (Trigger.weekly weekday_idx (remind / 60) (remind % 60)
        ev.title ev.time ev.description
        ("reminder_" ++ toString weekday_idx ++ "_" ++ pystr ev.time))

/-- Lab3's per-event body: identical except that an absent `day` key
defaults to `"Понедельник"` instead of `""`. -/
def reminder_for_lab3 (ev : Event) : Option Trigger :=
  match weekdays_lab3 (ev.day.getD "Понедельник") with
  | none => none
  | some weekday_idx =>
    match parseHHMM (ev.time.getD "00:00") with
    | none => none
    | some (h, m) =>
      let total := h * 60 + m
      let remind := (total + 1440 - 15) % 1440
      some (Trigger.weekly weekday_idx (remind / 60) (remind % 60)
        ev.title ev.time ev.description
        ("reminder_" ++ toString weekday_idx ++ "_" ++ pystr ev.time))

/-- Lab2's `schedule_jobs`: register the daily digest at 09:00 local,
then one reminder per event, skipping (log and continue) any event whose
weekday lookup or time parse raises.  The returned list is the
registration order. -/
def schedule_jobs_lab2 (doc : Doc) : List Trigger :=
  Trigger.daily 9 0 :: doc.events.filterMap reminder_for_lab2

/-- Lab3's `schedule_jobs`, same shape over its own per-event body. -/
def schedule_jobs_lab3 (doc : Doc) : List Trigger :=
  Trigger.daily 9 0 :: doc.events.filterMap reminder_for_lab3

/-! ### The external job runner, at the spec boundary -/

/-- Modelled from the spec: the third-party job queue the triggers are
registered with is outside the repository, so its fire semantics follow
the spec's boundary description — a time zone is an arbitrary
minute-offset function of the UTC instant (minutes since some epoch
midnight; a daylight-saving transition is a change of the offset), and a
`run_daily` trigger fires exactly at the instants whose local wall clock
in the configured zone reads the trigger's time (and, when a `days`
restriction is present, whose local day is that weekday, day 0 of the
epoch being a Monday). -/
def fires_at (tzoffset : Int → Int) (tr : Trigger) (t : Int) : Prop :=
  match tr with
  | Trigger.daily h m => (t + tzoffset t) % 1440 = (h : Int) * 60 + m
  | Trigger.weekly wd h m _ _ _ _ =>
      (t + tzoffset t) % 1440 = (h : Int) * 60 + m
        ∧ ((t + tzoffset t) / 1440) % 7 = (wd : Int)

/-- The local wall-clock reading, in minutes past local midnight. -/
def localClock (tzoffset : Int → Int) (t : Int) : Int :=
  (t + tzoffset t) % 1440

/-! ### Shared lemmas -/

/-- The two weekday tables, written once per source file, are the same
seven-entry mapping. -/
theorem weekday_tables_eq : ru_to_py_weekday = weekdays_lab3 := rfl

/-- A successful `%H:%M` parse is range-checked: at most 23 hours and 59
minutes. -/
theorem parseHHMM_bounds {s : String} {h m : Nat}
    (hp : parseHHMM s = some (h, m)) : h ≤ 23 ∧ m ≤ 59 := by
  unfold parseHHMM at hp
  split at hp
  · split at hp
    · rename_i hguard
      simp only [Option.some.injEq, Prod.mk.injEq] at hp
      obtain ⟨hh, hm⟩ := hp
      subst hh
      subst hm
      exact ⟨hguard.2.2.2.2.2.2.1, hguard.2.2.2.2.2.2.2⟩
    · exact absurd hp (by simp)
  · exact absurd hp (by simp)

/-- The weekly trigger `schedule_jobs` registers for an event whose
weekday index is `wd` and whose parsed time is `h:m`. -/
def reminder_trigger (wd h m : Nat) (ev : Event) : Trigger :=
  Trigger.weekly wd (((h * 60 + m + 1440 - 15) % 1440) / 60)
    (((h * 60 + m + 1440 - 15) % 1440) % 60)
    ev.title ev.time ev.description
    ("reminder_" ++ toString wd ++ "_" ++ pystr ev.time)

theorem reminder_for_lab2_eq {ev : Event} {wd h m : Nat}
    (hwd : ru_to_py_weekday (ev.day.getD "") = some wd)
    (hpt : parseHHMM (ev.time.getD "00:00") = some (h, m)) :
    reminder_for_lab2 ev = some (reminder_trigger wd h m ev) := by
  simp [reminder_for_lab2, hwd, hpt, reminder_trigger]

theorem reminder_for_lab3_eq {ev : Event} {wd h m : Nat}
    (hwd : weekdays_lab3 (ev.day.getD "Понедельник") = some wd)
    (hpt : parseHHMM (ev.time.getD "00:00") = some (h, m)) :
    reminder_for_lab3 ev = some (reminder_trigger wd h m ev) := by
  simp [reminder_for_lab3, hwd, hpt, reminder_trigger]

/-- The loop trace is a map over the subscriber list: one attempt record
per subscriber, in order, never aborting. -/
theorem send_loop_eq_map (deliver : Int → Except String Unit) (text : String)
    (subs : List Int) :
    send_loop deliver text subs
      = subs.map (fun chat_id => (chat_id, text, delivered deliver chat_id)) := by
  induction subs with
  | nil => rfl
  | cons c rest ih => simp [send_loop, ih]

/-! ### Claim theorems -/

/-- C1: the claim says a Monday 00:05 event's reminder is attributed to
the previous weekday (Sunday, index 6) at 23:50.  The code computes the
23:50 fire time (no clamping to 00:00) but registers the trigger with
`days=(weekday_idx,)` where `weekday_idx` is the event's own weekday,
unchanged: for the Monday 00:05 event both files register the reminder on
weekday index 0 (Monday) at 23:50, contradicting the claim's (and the
code's own "15 minutes before the event" comment's) previous-weekday
attribution. -/
theorem reminder_midnight_crossing_keeps_event_weekday :
    reminder_for_lab2 ⟨some "Понедельник", some "00:05", some "T", some "D"⟩
        = some (Trigger.weekly 0 23 50 (some "T") (some "00:05") (some "D") "reminder_0_00:05")
      ∧ reminder_for_lab3 ⟨some "Понедельник", some "00:05", some "T", some "D"⟩
        = some (Trigger.weekly 0 23 50 (some "T") (some "00:05") (some "D") "reminder_0_00:05") := by
  decide

/-- C8: `save_data` followed by `load_data` returns the saved document
unchanged, for every well-formed document and every prior file state (the
write goes to the `.tmp` sidecar and is renamed into place; the
serialise/parse fidelity of the `json` codec on well-formed documents is
the standard library's contract). -/
theorem save_then_load_roundtrip (d : Doc) (fs : FileState) :
    load_data (save_data d fs) = d := rfl

/-- C9: for every event whose weekday label is recognised and whose
`HH:MM` time parses to 00:15 or later, the registered reminder trigger is
on the event's own weekday index at the event time minus 15 minutes
(e.g. Friday 09:10 gives 08:55 on Friday, index 4). -/
theorem reminder_same_day_minus_fifteen (ev : Event) (wd h m : Nat)
    (hwd : ru_to_py_weekday (ev.day.getD "") = some wd)
    (hpt : parseHHMM (ev.time.getD "00:00") = some (h, m))
    (hge : 15 ≤ h * 60 + m) :
    reminder_for_lab2 ev
      = some (Trigger.weekly wd ((h * 60 + m - 15) / 60) ((h * 60 + m - 15) % 60)
          ev.title ev.time ev.description
          ("reminder_" ++ toString wd ++ "_" ++ pystr ev.time)) := by
  obtain ⟨hh, hm⟩ := parseHHMM_bounds hpt
  rw [reminder_for_lab2_eq hwd hpt]
  unfold reminder_trigger
  have h1 : (h * 60 + m + 1440 - 15) % 1440 / 60 = (h * 60 + m - 15) / 60 := by omega
  have h2 : (h * 60 + m + 1440 - 15) % 1440 % 60 = (h * 60 + m - 15) % 60 := by omega
  rw [h1, h2]

theorem reminder_same_day_minus_fifteen_witness :
    reminder_for_lab2 ⟨some "Пятница", some "09:10", some "T", some "D"⟩
      = some (Trigger.weekly 4 ((9 * 60 + 10 - 15) / 60) ((9 * 60 + 10 - 15) % 60)
          (some "T") (some "09:10") (some "D") "reminder_4_09:10") :=
  reminder_same_day_minus_fifteen ⟨some "Пятница", some "09:10", some "T", some "D"⟩
    4 9 10 (by decide) (by decide) (by decide)

/-- C10: when the chat id of a `/start` invocation is already among the
stored subscribers, the handler performs no save, leaves the file state
untouched, and only produces the greeting reply. -/
theorem start_existing_subscriber_no_save (fs : FileState) (cid : Int) (u : String)
    (hmem : cid ∈ (load_data fs).subscribers) :
    start (some cid) u fs = { fs := fs, saved := false, reply := start_greeting u } := by
  simp [start, hmem]

theorem start_existing_subscriber_no_save_witness :
    start (some 7) "x" ⟨some { emptyDoc with subscribers := [7] }, none⟩
      = { fs := ⟨some { emptyDoc with subscribers := [7] }, none⟩, saved := false
          reply := start_greeting "x" } :=
  start_existing_subscriber_no_save ⟨some { emptyDoc with subscribers := [7] }, none⟩
    7 "x" (by decide)

/-- C7: running `/start` twice with the same chat id, from any store whose
subscriber list holds that id at most once (the invariant the
membership-guarded append maintains), leaves exactly one occurrence of
the id in the stored list, and the second invocation does not change the
file state at all. -/
theorem start_subscribe_idempotent (fs : FileState) (cid : Int) (u : String)
    (hdedup : (load_data fs).subscribers.count cid ≤ 1) :
    (load_data (start (some cid) u (start (some cid) u fs).fs).fs).subscribers.count cid = 1
      ∧ (start (some cid) u (start (some cid) u fs).fs).fs = (start (some cid) u fs).fs := by
  by_cases hmem : cid ∈ (load_data fs).subscribers
  · have h1 : start (some cid) u fs = ⟨fs, false, start_greeting u⟩ := by
      simp [start, hmem]
    have hcount : (load_data fs).subscribers.count cid = 1 :=
      Nat.le_antisymm hdedup (List.count_pos_iff.mpr hmem)
    rw [h1]
    rw [show (StartOutcome.mk fs false (start_greeting u)).fs = fs from rfl]
    rw [h1]
    exact ⟨hcount, rfl⟩
  · have h1 : start (some cid) u fs
        = ⟨save_data { load_data fs with
              subscribers := (load_data fs).subscribers ++ [cid] } fs, true,
            start_greeting u⟩ := by
      simp [start, hmem]
    rw [h1]
    have hload : load_data (save_data { load_data fs with
        subscribers := (load_data fs).subscribers ++ [cid] } fs)
          = { load_data fs with subscribers := (load_data fs).subscribers ++ [cid] } := rfl
    have hmem2 : cid ∈ (load_data fs).subscribers ++ [cid] :=
      List.mem_append_right _ (List.mem_singleton.mpr rfl)
    have h2 : start (some cid) u (save_data { load_data fs with
        subscribers := (load_data fs).subscribers ++ [cid] } fs)
          = ⟨save_data { load_data fs with
              subscribers := (load_data fs).subscribers ++ [cid] } fs, false,
            start_greeting u⟩ := by
      simp only [start, hload]
      simp [hmem2]
    rw [show (StartOutcome.mk (save_data { load_data fs with
        subscribers := (load_data fs).subscribers ++ [cid] } fs) true
          (start_greeting u)).fs
        = save_data { load_data fs with
            subscribers := (load_data fs).subscribers ++ [cid] } fs from rfl]
    rw [h2]
    refine ⟨?_, rfl⟩
    rw [show (StartOutcome.mk (save_data { load_data fs with
        subscribers := (load_data fs).subscribers ++ [cid] } fs) false
          (start_greeting u)).fs
        = save_data { load_data fs with
            subscribers := (load_data fs).subscribers ++ [cid] } fs from rfl]
    rw [hload]
    simp [List.count_append, List.count_eq_zero.mpr hmem]

theorem start_subscribe_idempotent_witness :
    (load_data (start (some 5) "u" (start (some 5) "u" ⟨none, none⟩).fs).fs).subscribers.count 5 = 1
      ∧ (start (some 5) "u" (start (some 5) "u" ⟨none, none⟩).fs).fs
        = (start (some 5) "u" ⟨none, none⟩).fs :=
  start_subscribe_idempotent ⟨none, none⟩ 5 "u" (by decide)

/-- C2: the first trigger either file's `schedule_jobs` registers is the
daily digest at 09:00 in the configured zone with no day restriction, and
under the spec-modelled runner it fires exactly at the instants whose
local wall clock reads 09:00 — for every offset function of the instant,
so across a daylight-saving offset change the fire time is still 09:00
local, not a fixed UTC offset. -/
theorem daily_digest_fires_at_nine_local (doc : Doc) (tzoffset : Int → Int)
    (t : Int) (tr : Trigger)
    (hhead : (schedule_jobs_lab2 doc).head? = some tr
      ∨ (schedule_jobs_lab3 doc).head? = some tr) :
    fires_at tzoffset tr t ↔ localClock tzoffset t = 9 * 60 := by
  have htr : tr = Trigger.daily 9 0 := by
    rcases hhead with h | h
    · simpa [schedule_jobs_lab2, eq_comm] using h
    · simpa [schedule_jobs_lab3, eq_comm] using h
  subst htr
  unfold fires_at localClock
  norm_num

theorem daily_digest_fires_at_nine_local_witness :
    fires_at (fun t => if t < 100000 then 60 else 120) (Trigger.daily 9 0) 480
      ↔ localClock (fun t => if t < 100000 then 60 else 120) 480 = 9 * 60 :=
  daily_digest_fires_at_nine_local emptyDoc (fun t => if t < 100000 then 60 else 120)
    480 (Trigger.daily 9 0) (Or.inl rfl)

/-- An event whose `day` key is recognised behaves the same under both
per-event bodies (the weekday tables coincide and the differing `get`
defaults are never consulted). -/
theorem reminder_agree (ev : Event) (h : ev.day.isSome = true) :
    reminder_for_lab2 ev = reminder_for_lab3 ev := by
  obtain ⟨d, hd⟩ := Option.isSome_iff_exists.mp h
  unfold reminder_for_lab2 reminder_for_lab3
  rw [hd]
  exact rfl

theorem filterMap_reminders_agree (l : List Event)
    (hday : ∀ ev ∈ l, ev.day.isSome = true) :
    l.filterMap reminder_for_lab2 = l.filterMap reminder_for_lab3 := by
  induction l with
  | nil => rfl
  | cons e rest ih =>
    rw [List.filterMap_cons, List.filterMap_cons,
      reminder_agree e (hday e (List.mem_cons_self e rest)),
      ih (fun ev hev => hday ev (List.mem_cons_of_mem e hev))]

def c3_doc : Doc := { emptyDoc with events := [⟨none, some "10:00", some "T", some "D"⟩] }

/-- C3 counterexample: on the event list holding one event without a
`day` key, Lab2's `schedule_jobs` skips the event (its `get` default `""`
raises `KeyError`) while Lab3's defaults the missing key to
`"Понедельник"` and schedules a Monday reminder, so the two register
different trigger sets. -/
theorem schedule_jobs_lab2_lab3_differ_on_missing_day :
    schedule_jobs_lab2 c3_doc ≠ schedule_jobs_lab3 c3_doc := by
  decide

/-- C3 amended: for every event list in which each event carries a `day`
key — recognised or not — the two `schedule_jobs` register identical
trigger lists (same weekday index, fire time, payload and name, in the
same order); the implementations diverge only on an event whose `day`
key is missing, which Lab2 skips and Lab3 schedules on Monday. -/
theorem schedule_jobs_agree_when_day_present (doc : Doc)
    (hday : ∀ ev ∈ doc.events, ev.day.isSome = true) :
    schedule_jobs_lab2 doc = schedule_jobs_lab3 doc := by
  unfold schedule_jobs_lab2 schedule_jobs_lab3
  rw [filterMap_reminders_agree doc.events hday]

def c3w_doc : Doc :=
  { emptyDoc with events :=
      [⟨some "Пятница", some "09:10", some "T", some "D"⟩,
        ⟨some "НеДень", some "10:00", some "A", some "B"⟩] }

theorem schedule_jobs_agree_when_day_present_witness :
    schedule_jobs_lab2 c3w_doc = schedule_jobs_lab3 c3w_doc :=
  schedule_jobs_agree_when_day_present c3w_doc (by decide)

def c4_fs : FileState := ⟨some { emptyDoc with subscribers := [111] }, none⟩

/-- C4 counterexample: with subscriber 111 present but the store's
`events` list empty at fire time, the reminder callback returns without
attempting any send (its early `return`), contradicting the claim's
"regardless of the contents of the store's events list". -/
theorem send_event_reminder_skips_when_events_empty :
    send_event_reminder (fun _ => Except.ok ()) (some "T") (some "10:00") (some "D") c4_fs = []
      ∧ (load_data c4_fs).subscribers = [111] := by
  decide

/-- C4 amended: whenever a reminder trigger fires and the store's
`events` list is non-empty at fire time, the fixed-template message built
from the trigger's carried payload is sent (attempted, best-effort) to
every stored subscriber in order; when the `events` list is empty the
fire sends nothing. -/
theorem send_event_reminder_attempts_all_when_events_nonempty
    (deliver : Int → Except String Unit) (title time_str description : Option String)
    (fs : FileState) (hev : (load_data fs).events ≠ []) :
    send_event_reminder deliver title time_str description fs
      = (load_data fs).subscribers.map
          (fun chat_id => (chat_id, reminder_text title time_str description,
            delivered deliver chat_id)) := by
  simp only [send_event_reminder]
  rw [if_neg hev, send_loop_eq_map]

def c4w_fs : FileState :=
  ⟨some { emptyDoc with
      subscribers := [111, 222]
      events := [⟨some "Пятница", some "09:10", some "T", some "D"⟩] }, none⟩

theorem send_event_reminder_attempts_all_when_events_nonempty_witness :
    send_event_reminder (fun _ => Except.ok ()) (some "T") (some "09:10") (some "D") c4w_fs
      = (load_data c4w_fs).subscribers.map
          (fun chat_id => (chat_id, reminder_text (some "T") (some "09:10") (some "D"),
            delivered (fun _ => Except.ok ()) chat_id)) :=
  send_event_reminder_attempts_all_when_events_nonempty
    (fun _ => Except.ok ()) (some "T") (some "09:10") (some "D") c4w_fs (by decide)

/-- C5: for every document, both `schedule_jobs` register the daily
digest trigger, and for every event in the list whose weekday label
resolves and whose time string parses — every well-formed event — its
reminder trigger, regardless of what other (possibly malformed) events
the list holds: a malformed event is skipped in isolation and prevents
nothing else. -/
theorem malformed_event_isolated_scheduling (doc : Doc) :
    (Trigger.daily 9 0 ∈ schedule_jobs_lab2 doc
        ∧ Trigger.daily 9 0 ∈ schedule_jobs_lab3 doc)
      ∧ (∀ ev ∈ doc.events, ∀ wd h m : Nat,
          ru_to_py_weekday (ev.day.getD "") = some wd →
          parseHHMM (ev.time.getD "00:00") = some (h, m) →
          reminder_trigger wd h m ev ∈ schedule_jobs_lab2 doc)
      ∧ (∀ ev ∈ doc.events, ∀ wd h m : Nat,
          weekdays_lab3 (ev.day.getD "Понедельник") = some wd →
          parseHHMM (ev.time.getD "00:00") = some (h, m) →
          reminder_trigger wd h m ev ∈ schedule_jobs_lab3 doc) := by
  unfold schedule_jobs_lab2 schedule_jobs_lab3
  refine ⟨⟨List.mem_cons_self _ _, List.mem_cons_self _ _⟩, ?_, ?_⟩
  · intro ev hev wd h m hwd hpt
    exact List.mem_cons_of_mem _
      (List.mem_filterMap.mpr ⟨ev, hev, reminder_for_lab2_eq hwd hpt⟩)
  · intro ev hev wd h m hwd hpt
    exact List.mem_cons_of_mem _
      (List.mem_filterMap.mpr ⟨ev, hev, reminder_for_lab3_eq hwd hpt⟩)

def c5_doc : Doc :=
  { emptyDoc with events :=
      [⟨some "Плохой", some "10:00", some "A", some "B"⟩,
        ⟨some "Пятница", some "xx:yy", some "A", some "B"⟩,
        ⟨some "Пятница", some "09:10", some "T", some "D"⟩] }

theorem malformed_event_isolated_scheduling_witness :
    Trigger.daily 9 0 ∈ schedule_jobs_lab2 c5_doc
      ∧ reminder_trigger 4 9 10 ⟨some "Пятница", some "09:10", some "T", some "D"⟩
          ∈ schedule_jobs_lab2 c5_doc :=
  ⟨(malformed_event_isolated_scheduling c5_doc).1.1,
    (malformed_event_isolated_scheduling c5_doc).2.1
      ⟨some "Пятница", some "09:10", some "T", some "D"⟩ (by decide)
      4 9 10 (by decide) (by decide)⟩

/-- C6: during one digest fire over subscriber list `[111, 222]` with a
non-empty digest entry for today, a transport failure for 111 produces a
failed attempt record, is caught inside the loop, and does not stop 222's
message from being delivered; the callback returns its full trace
normally rather than propagating the error. -/
theorem digest_delivery_failure_isolated (deliver : Int → Except String Unit)
    (e today msg : String) (fs : FileState)
    (h111 : deliver 111 = Except.error e) (h222 : deliver 222 = Except.ok ())
    (hsubs : (load_data fs).subscribers = [111, 222])
    (hdig : dict_get (load_data fs).digests today = some msg) (hmsg : msg ≠ "") :
    send_daily_digest deliver today fs = [(111, msg, false), (222, msg, true)] := by
  simp only [send_daily_digest, hdig, hsubs, if_neg hmsg, send_loop, delivered, h111, h222]

def c6_fs : FileState :=
  ⟨some { emptyDoc with
      subscribers := [111, 222]
      digests := [("Понедельник", "Hi")] }, none⟩

def c6_deliver : Int → Except String Unit :=
  fun chat_id => if chat_id = 111 then Except.error "network down" else Except.ok ()

theorem digest_delivery_failure_isolated_witness :
    send_daily_digest c6_deliver "Понедельник" c6_fs = [(111, "Hi", false), (222, "Hi", true)] :=
  digest_delivery_failure_isolated c6_deliver "network down" "Понедельник" "Hi" c6_fs
    rfl rfl rfl rfl (by decide)

end TgLabs
